import Mathlib

/-!
Shallow embedding of `sql/utils/execute_sql.py` (execution orchestrator of a
database-change-management platform) and verification of its specification.

The module under study has two entry points:

* `execute(workflow_id, user)` — the execution dispatcher: guards the
  queuing/timingtask → executing transition, appends an audit entry and hands
  the workflow record to the external execution engine;
* `execute_callback(task)` — the callback reconciler: guards against duplicate
  callbacks, classifies the task outcome, persists the result (with a forced
  fallback update on persistence failure), resolves the environment chain
  (dev < sit < uat < pro) and promotes the workflow to the next configured
  environment, then performs audit logging, cache invalidation and
  notification.

External collaborators (database save, audit log, redis cache, notification,
system configuration) are modelled by explicit success flags and values in a
`CallbackEnv` record; raising a Python exception is modelled by returning an
error value together with the state reached at the raise point.
-/

namespace ExecuteSql

/-- Python `str.replace` on exploded strings, fuel-indexed so that it is
structural and kernel-reducible.  Replaces non-overlapping occurrences of
`pat` left to right.  One fuel unit is consumed per emitted character or
match, so `l.length` fuel is always enough when `pat` is non-empty. -/
def pyReplaceAux (pat rep : List Char) : Nat → List Char → List Char
  | 0, l => l
  | _ + 1, [] => []
  | fuel + 1, c :: cs =>
    if pat.isPrefixOf (c :: cs) then
      rep ++ pyReplaceAux pat rep fuel ((c :: cs).drop pat.length)
    else
      c :: pyReplaceAux pat rep fuel cs

/-- Python `s.replace(pat, rep)` for a non-empty `pat` (the only way the
source uses it: the patterns are bracketed environment tags). -/
def pyReplace (s pat rep : String) : String :=
  if pat.data.isEmpty then s
  else String.mk (pyReplaceAux pat.data rep.data s.data.length s.data)

/-- Accumulator pass of Python `str.split` with a one-character separator. -/
def pySplitAux (sep : Char) : List Char → List Char → List (List Char)
  | acc, [] => [acc.reverse]
  | acc, c :: cs =>
    if c = sep then acc.reverse :: pySplitAux sep [] cs
    else pySplitAux sep (c :: acc) cs

/-- Python `s.split(sep)` for a one-character separator; in particular
`"".split(",") = [""]`. -/
def pySplit (s : String) (sep : Char) : List String :=
  (pySplitAux sep [] s.data).map String.mk

/-- The four bracketed environment tags recognised by the regular expression
`^\[(dev|sit|uat|pro)\]` of the source. -/
def envTags : List String := ["[dev]", "[sit]", "[uat]", "[pro]"]

/-- `re.match(r'^\[(dev|sit|uat|pro)\]', name)` succeeds iff `name` starts
with one of the four environment tags. -/
def hasEnvTag (name : String) : Bool :=
  envTags.any (fun t => t.data.isPrefixOf name.data)

/-- Acting user handed to `execute`; `None` means a system-initiated run. -/
structure User where
  username : String
  display : String
deriving Repr, DecidableEq

/-- One audit-log record appended through `Audit.add_log`. -/
structure AuditEntry where
  operation_type : Nat
  operation_type_desc : String
  operation_info : String
  operator : String
  operator_display : String
deriving Repr, DecidableEq

/-- One `ReviewResult` row of an execution result. -/
structure ReviewResult where
  stage : String
  errlevel : Nat
  stagestatus : String
  errormessage : String
  sql : String
deriving Repr, DecidableEq

/-- A `ReviewSet` execution result: warning/error flags plus ordered rows. -/
structure ReviewSet where
  full_sql : String
  warning : Bool
  error : Bool
  rows : List ReviewResult
deriving Repr, DecidableEq

/-- What django-q delivers in `task`: on success `task.result` is the
`ReviewSet` returned by the engine, on failure it is the raw error detail
(stack trace) text. -/
inductive TaskOutcome where
  | succeeded (result : ReviewSet)
  | failed (detail : String)
deriving Repr, DecidableEq

/-- The django-q task handed to the callback hook: `task.args[0]` is the
workflow id, `task.success`/`task.result` are folded into `outcome`, and
`task.stopped` is the finish timestamp. -/
structure Task where
  wfId : Nat
  outcome : TaskOutcome
  stopped : Nat
deriving Repr, DecidableEq

/-- The `SqlWorkflow` row fields touched by this module. -/
structure Workflow where
  id : Nat
  status : String
  «instance» : String
  db_name : String
  workflow_name : String
  syntax_type : Nat
  finish_time : Option Nat
deriving Repr, DecidableEq

/-- The serialized payload stored in `SqlWorkflowContent.execute_result`:
either the JSON of a `ReviewSet` (normal path) or the captured error text
(the `{f"{e}"}` fallback of the except branch). -/
inductive ExecPayload where
  | empty
  | json (r : ReviewSet)
  | errText (e : String)
deriving Repr, DecidableEq

/-- The `SqlWorkflowContent` row owned by the workflow. -/
structure SqlWorkflowContent where
  sql_content : String
  execute_result : ExecPayload
deriving Repr, DecidableEq

/-- A `DBEnvRelation` row: four optional (instance, database) environment
slots in the fixed order dev, sit, uat, pro. -/
structure DBEnvRelation where
  dev_instance : Option String
  dev_database : Option String
  sit_instance : Option String
  sit_database : Option String
  uat_instance : Option String
  uat_database : Option String
  pro_instance : Option String
  pro_database : Option String
deriving Repr, DecidableEq

/-- The observable world state of one reconciliation: the persisted workflow
row and content row, the audit log, and the cache / notification effects. -/
structure Store where
  wf : Workflow
  content : SqlWorkflowContent
  auditLog : List AuditEntry
  cacheCleared : Bool
  notified : Bool
deriving Repr, DecidableEq

/-- Behaviour of the external collaborators during one callback run:
whether the primary persistence of step 3 succeeds (`saveOk`, with the
captured exception text `saveErrText` used by the fallback), the
`DBEnvRelation` row found by the filter query (`link`), whether the audit,
cache and notification collaborators succeed, and the
`notify_phase_control` system-configuration value (`none` = unset). -/
structure CallbackEnv where
  saveOk : Bool
  saveErrText : String
  link : Option DBEnvRelation
  auditOk : Bool
  cacheOk : Bool
  notifyOk : Bool
  notify_phase_control : Option String
deriving Repr, DecidableEq

/-- The Python exceptions that can escape `execute_callback`: the duplicate
callback guard of step 1, or an uncaught collaborator failure further down. -/
inductive CbErr where
  | duplicateCallback (id : Nat)
  | auditFailure
  | cacheFailure
  | notifyFailure
deriving Repr, DecidableEq

/-- Result of one `execute_callback` run: the escaped exception, if any,
and the world state at return or at the raise point. -/
structure CResult where
  err : Option CbErr
  store : Store
deriving Repr, DecidableEq

/-- Result of one `execute` (dispatch) run: the escaped exception text, if
any, the persisted workflow row, the audit log, and the in-memory workflow
record handed to the engine (`none` when the engine was never reached). -/
structure DispatchResult where
  err : Option String
  wf : Workflow
  auditLog : List AuditEntry
  engineArg : Option Workflow
deriving Repr, DecidableEq

/-- The outcome classifier (lines 66–84 of the source): a failed task
synthesizes a single-row `ReviewSet`; a completed task with a warning or
error flag classifies as exception with the result as-is; a clean result
classifies as finish with the result as-is.  Total by construction. -/
def classify (outcome : TaskOutcome) (sql_content : String) :
    String × ReviewSet :=
  match outcome with
  | .failed detail =>
    ("workflow_exception",
      { full_sql := sql_content
        warning := false
        error := false
        rows := [{ stage := "Execute failed"
                   errlevel := 2
                   stagestatus := "异常终止"
                   errormessage := detail
                   sql := sql_content }] })
  | .succeeded r =>
    (if r.warning || r.error then "workflow_exception" else "workflow_finish",
      r)

/-- Result of the environment-chain resolution (lines 105–126): the labels
of the current and next environments (empty string = none, as in the
source's sentinel values) and the next slot's (instance, database) target
when configured. -/
structure EnvResolution where
  curr_env : String
  next_env : String
  retarget : Option (String × String)
deriving Repr, DecidableEq

/-- The try-block of lines 107–126.  `none` for the link models
`DBEnvRelation.objects.filter(...).first()` returning `None`, in which case
the attribute access raises and the except-branch swallows it, leaving the
sentinel values.  A slot whose instance matches is checked for a configured
successor: `instance is not None and len(database) > 0`; when the successor
database is `None`, `len(None)` raises inside the try-block after
`curr_env` was already assigned, so only `curr_env` survives. -/
def resolveEnv (link : Option DBEnvRelation) (inst db : String) :
    EnvResolution :=
  match link with
  | none => ⟨"", "", none⟩
  | some r =>
    if r.dev_instance = some inst ∧ r.dev_database = some db then
      match r.sit_instance, r.sit_database with
      | some i2, some d2 =>
        if d2.length > 0 then ⟨"dev", "sit", some (i2, d2)⟩
        else ⟨"dev", "", none⟩
      | some _, none => ⟨"dev", "", none⟩
      | none, _ => ⟨"dev", "", none⟩
    else if r.sit_instance = some inst ∧ r.sit_database = some db then
      match r.uat_instance, r.uat_database with
      | some i2, some d2 =>
        if d2.length > 0 then ⟨"sit", "uat", some (i2, d2)⟩
        else ⟨"sit", "", none⟩
      | some _, none => ⟨"sit", "", none⟩
      | none, _ => ⟨"sit", "", none⟩
    else if r.uat_instance = some inst ∧ r.uat_database = some db then
      match r.pro_instance, r.pro_database with
      | some i2, some d2 =>
        if d2.length > 0 then ⟨"uat", "pro", some (i2, d2)⟩
        else ⟨"uat", "", none⟩
      | some _, none => ⟨"uat", "", none⟩
      | none, _ => ⟨"uat", "", none⟩
    else if r.pro_instance = some inst ∧ r.pro_database = some db then
      ⟨"pro", "", none⟩
    else
      ⟨"", "", none⟩

/-- The workflow-name rewrite of lines 130–136: if the name starts with a
bracketed environment tag, Python `str.replace` substitutes every
occurrence of the current environment's tag by the next one's; otherwise
the next environment's tag is prepended. -/
def rewriteName (curr_env next_env name : String) : String :=
  let curr_mark := "[" ++ curr_env ++ "]"
  let next_mark := "[" ++ next_env ++ "]"
  if hasEnvTag name then pyReplace name curr_mark next_mark
  else next_mark ++ name

/-- Result of the promotion step: the (possibly retargeted, renamed and
restatused) in-memory workflow, the resolved current environment label and
the audit "pending" prompt suffix. -/
structure PromoStep where
  wf : Workflow
  curr_env : String
  prompt : String
deriving Repr, DecidableEq

/-- The environment promoter (lines 98–137 without the persistence): resolve
the chain, retarget `instance`/`db_name` to the next configured slot, and —
whenever a next environment was found — set `status` to
`workflow_review_pass`, rewrite `workflow_name` and build the pending
prompt.  Note that the source never consults the classified status here. -/
def applyPromotion (link : Option DBEnvRelation) (wf : Workflow) : PromoStep :=
  let res := resolveEnv link wf.«instance» wf.db_name
  let wf1 : Workflow :=
    match res.retarget with
    | some (i, d) => { wf with «instance» := i, db_name := d }
    | none => wf
  if res.next_env ≠ "" then
    { wf := { wf1 with
        status := "workflow_review_pass"
        workflow_name := rewriteName res.curr_env res.next_env
          wf1.workflow_name }
      curr_env := res.curr_env
      prompt := "," ++ res.next_env ++ " 环境待执行" }
  else
    { wf := wf1, curr_env := res.curr_env, prompt := "" }

/-- Modelled from the spec: Django's `get_status_display` resolves the
display label of a status through the choices declared in `sql/models.py`,
which is not part of the given sources; no claim depends on the label
values, so the labelling is left as the identity map. -/
def get_status_display (status : String) : String := status

/-- The notification gate of lines 159–164: Python truthiness of the
configuration value (unset or empty ⇒ default `True`), otherwise membership
of `"Execute"` in the comma-separated phase list. -/
def is_notified (notify_phase_control : Option String) : Bool :=
  match notify_phase_control with
  | none => true
  | some s => if s = "" then true else (pySplit s ',').contains "Execute"

/-- The final notification step (lines 158–166): when the gate is open,
invoke `notify_for_execute`; a collaborator failure there is uncaught. -/
def notifyStep (env : CallbackEnv) (st : Store) : CResult :=
  if is_notified env.notify_phase_control then
    if env.notifyOk then ⟨none, { st with notified := true }⟩
    else ⟨some .notifyFailure, st⟩
  else ⟨none, st⟩

/-- The callback reconciler `execute_callback` (lines 49–166).  Step 1 is
the duplicate-callback guard.  Step 2/3 classify and persist; on
persistence failure the except-branch forces `status = workflow_exception`
and `finish_time` by a direct update and stores the captured error text as
the content payload.  Steps 4–6 resolve the chain and promote (the caught
try-block failures are folded into `resolveEnv`), then line 138 saves the
in-memory workflow.  Steps 7–9 (audit, DDL cache invalidation,
notification) are not wrapped in any handler: a collaborator failure there
escapes with the state reached so far. -/
def execute_callback (env : CallbackEnv) (task : Task) (st : Store) :
    CResult :=
  if st.wf.status ≠ "workflow_executing" then
    ⟨some (.duplicateCallback st.wf.id), st⟩
  else
    let cls := classify task.outcome st.content.sql_content
    let wfB : Workflow :=
      { st.wf with finish_time := some task.stopped, status := cls.1 }
    let st1 : Store :=
      if env.saveOk then
        { st with
            wf := wfB
            content := { st.content with execute_result := .json cls.2 } }
      else
        { st with
            wf := { st.wf with
                status := "workflow_exception"
                finish_time := some task.stopped }
            content := { st.content with
                execute_result := .errText env.saveErrText } }
    let curr_workflow_rst := get_status_display wfB.status
    let p := applyPromotion env.link wfB
    let st2 : Store := { st1 with wf := p.wf }
    if env.auditOk = false then ⟨some .auditFailure, st2⟩
    else
      let st3 : Store :=
        { st2 with auditLog := st2.auditLog ++
            [{ operation_type := 6
               operation_type_desc := p.curr_env ++ " 执行结束"
               operation_info := p.curr_env ++ " 环境执行结果：" ++
                 curr_workflow_rst ++ p.prompt
               operator := ""
               operator_display := "系统" }] }
      if p.wf.syntax_type = 1 then
        if env.cacheOk = false then ⟨some .cacheFailure, st3⟩
        else notifyStep env { st3 with cacheCleared := true }
      else notifyStep env st3

/-- The dispatcher `execute` (lines 20–46): guard the state, persist only the
`status` field (`update_fields=["status"]`), append the audit entry, and
hand the previously loaded in-memory record to the engine. -/
def execute (wf : Workflow) (auditLog : List AuditEntry) (user : Option User) :
    DispatchResult :=
  if wf.status ≠ "workflow_queuing" ∧ wf.status ≠ "workflow_timingtask" then
    ⟨some "工单状态不正确，禁止执行！", wf, auditLog, none⟩
  else
    let entry : AuditEntry :=
      { operation_type := 5
        operation_type_desc := "执行工单"
        operation_info :=
          match user with
          | some _ => "工单开始执行"
          | none => "系统定时执行工单"
        operator := match user with | some u => u.username | none => ""
        operator_display :=
          match user with | some u => u.display | none => "系统" }
    ⟨none, { wf with status := "workflow_executing" },
      auditLog ++ [entry], some wf⟩

/-! ### Concrete fixtures used by witnesses and counterexamples -/

/-- An environment link whose dev slot is (I1, D1) and whose sit slot is the
configured pair (I2, D2); uat and pro are unset. -/
def linkC : DBEnvRelation :=
  { dev_instance := some "I1", dev_database := some "D1"
    sit_instance := some "I2", sit_database := some "D2"
    uat_instance := none, uat_database := none
    pro_instance := none, pro_database := none }

/-- A workflow currently executing against the dev slot of `linkC`. -/
def wfC : Workflow :=
  { id := 7, status := "workflow_executing", «instance» := "I1"
    db_name := "D1", workflow_name := "[dev]Add index"
    syntax_type := 0, finish_time := none }

/-- The same workflow in the queuing state, before dispatch. -/
def wfQ : Workflow := { wfC with status := "workflow_queuing" }

/-- World state holding `wfC` with an untouched content row. -/
def stC : Store :=
  { wf := wfC
    content := { sql_content := "select 1", execute_result := .empty }
    auditLog := [], cacheCleared := false, notified := false }

/-- Collaborator behaviour where everything succeeds, the link is `linkC`
and the notification configuration is unset. -/
def envC : CallbackEnv :=
  { saveOk := true, saveErrText := "", link := some linkC
    auditOk := true, cacheOk := true, notifyOk := true
    notify_phase_control := none }

/-- A failed task delivery (django-q hands the stack-trace text). -/
def taskFail : Task := { wfId := 7, outcome := .failed "boom", stopped := 100 }

/-- A clean successful result. -/
def rsClean : ReviewSet :=
  { full_sql := "select 1", warning := false, error := false
    rows := [{ stage := "Executed", errlevel := 0, stagestatus := "执行结束"
               errormessage := "", sql := "select 1" }] }

/-- A successful-delivery task with a clean result. -/
def taskOk : Task :=
  { wfId := 7, outcome := .succeeded rsClean, stopped := 100 }

/-- Collaborator behaviour whose primary persistence step fails. -/
def envSaveFail : CallbackEnv :=
  { envC with saveOk := false, saveErrText := "DatabaseError" }

/-- Collaborator behaviour whose audit-log collaborator fails. -/
def envAuditFail : CallbackEnv := { envC with auditOk := false }

/-- Collaborator behaviour where no environment link row is found. -/
def envNoLink : CallbackEnv := { envC with link := none }

/-- Collaborator behaviour with an explicitly empty notification
configuration value. -/
def envEmptyCfg : CallbackEnv := { envC with notify_phase_control := some "" }

/-- World state holding a DDL workflow (syntax_type 1). -/
def stDDL : Store := { stC with wf := { wfC with syntax_type := 1 } }

/-- Collaborator behaviour whose notification collaborator fails. -/
def envNotifyFail : CallbackEnv := { envC with notifyOk := false }

/-- Collaborator behaviour whose cache collaborator fails. -/
def envCacheFail : CallbackEnv := { envC with cacheOk := false }

/-- A fully configured environment link: dev=(I1,D1), sit=(I2,D2),
uat=(I3,D3), pro=(I4,D4). -/
def linkFull : DBEnvRelation :=
  { dev_instance := some "I1", dev_database := some "D1"
    sit_instance := some "I2", sit_database := some "D2"
    uat_instance := some "I3", uat_database := some "D3"
    pro_instance := some "I4", pro_database := some "D4" }

/-- A link whose dev slot is configured but whose sit slot has an instance
and a `None` database: `len(None)` raises inside the promotion try-block. -/
def linkHalf : DBEnvRelation :=
  { dev_instance := some "I1", dev_database := some "D1"
    sit_instance := some "I2", sit_database := none
    uat_instance := none, uat_database := none
    pro_instance := none, pro_database := none }

/-- Collaborator behaviour where the found link is `linkHalf`. -/
def envHalfLink : CallbackEnv := { envC with link := some linkHalf }

/-- The workflow executing against the sit slot of `linkFull`. -/
def wfSit : Workflow :=
  { wfC with
      «instance» := "I2"
      db_name := "D2"
      workflow_name := "[sit]Add index" }

/-- The workflow executing against the uat slot of `linkFull`. -/
def wfUat : Workflow :=
  { wfC with
      «instance» := "I3"
      db_name := "D3"
      workflow_name := "[uat]Add index" }

/-! ### Auxiliary lemmas -/

/-- The classifier only ever emits the two statuses of the source. -/
theorem classify_status_mem (o : TaskOutcome) (sql : String) :
    (classify o sql).1 = "workflow_exception" ∨
      (classify o sql).1 = "workflow_finish" := by
  cases o with
  | failed d => left; rfl
  | succeeded r =>
    by_cases h : (r.warning || r.error) = true
    · left; simp [classify, h]
    · right; simp [classify, h]

/-- Promotion either leaves the status alone or sets `workflow_review_pass`. -/
theorem applyPromotion_status (link : Option DBEnvRelation) (wf : Workflow) :
    (applyPromotion link wf).wf.status = wf.status ∨
      (applyPromotion link wf).wf.status = "workflow_review_pass" := by
  unfold applyPromotion
  cases hr : (resolveEnv link wf.«instance» wf.db_name).retarget <;>
    simp only [hr] <;> split <;> simp

/-- Promotion never touches `syntax_type`. -/
theorem applyPromotion_syntax_type (link : Option DBEnvRelation)
    (wf : Workflow) :
    (applyPromotion link wf).wf.syntax_type = wf.syntax_type := by
  unfold applyPromotion
  cases hr : (resolveEnv link wf.«instance» wf.db_name).retarget <;>
    simp only [hr] <;> split <;> simp

/-- Promotion never touches the workflow id. -/
theorem applyPromotion_id (link : Option DBEnvRelation) (wf : Workflow) :
    (applyPromotion link wf).wf.id = wf.id := by
  unfold applyPromotion
  cases hr : (resolveEnv link wf.«instance» wf.db_name).retarget <;>
    simp only [hr] <;> split <;> simp

/-- The notification step never changes the persisted workflow row. -/
theorem notifyStep_wf (env : CallbackEnv) (st : Store) :
    (notifyStep env st).store.wf = st.wf := by
  unfold notifyStep
  split <;> [split <;> rfl; rfl]

/-- The notification step never changes the persisted content row. -/
theorem notifyStep_content (env : CallbackEnv) (st : Store) :
    (notifyStep env st).store.content = st.content := by
  unfold notifyStep
  split <;> [split <;> rfl; rfl]

/-- The notification step never changes the audit log. -/
theorem notifyStep_auditLog (env : CallbackEnv) (st : Store) :
    (notifyStep env st).store.auditLog = st.auditLog := by
  unfold notifyStep
  split <;> [split <;> rfl; rfl]

/-- Without a link row the promotion step is a no-op: the attribute access
on `None` raises inside the try-block and is swallowed. -/
theorem applyPromotion_none (wf : Workflow) :
    applyPromotion none wf = ⟨wf, "", ""⟩ := rfl

/-- When the resolution found no configured next slot (also after a
swallowed try-block failure), the promotion step leaves the workflow
record untouched. -/
theorem applyPromotion_no_next (link : Option DBEnvRelation) (wf : Workflow)
    (h1 : (resolveEnv link wf.«instance» wf.db_name).next_env = "")
    (h2 : (resolveEnv link wf.«instance» wf.db_name).retarget = none) :
    (applyPromotion link wf).wf = wf := by
  unfold applyPromotion
  simp only [h1, h2]
  simp

/-- With a working notification collaborator, the step marks the state
notified exactly when the gate is open, and never fails. -/
theorem notifyStep_notified (env : CallbackEnv) (st : Store)
    (hN : env.notifyOk = true) :
    (notifyStep env st).store.notified =
      (st.notified || is_notified env.notify_phase_control) ∧
    (notifyStep env st).err = none := by
  unfold notifyStep
  cases hg : is_notified env.notify_phase_control <;> simp [hg, hN]

/-- The gate of `is_notified` in extensional form: open iff the
configuration value is unset, empty, or lists the "Execute" phase. -/
theorem is_notified_iff (cfg : Option String) :
    is_notified cfg = true ↔
      (cfg = none ∨ cfg = some "" ∨
        ∃ s, cfg = some s ∧ "Execute" ∈ pySplit s ',') := by
  cases cfg with
  | none => simp [is_notified]
  | some s =>
    by_cases hs : s = ""
    · subst hs
      simp [is_notified]
    · simp only [is_notified, if_neg hs, List.contains, Option.some.injEq]
      constructor
      · intro hmem
        exact Or.inr (Or.inr ⟨s, rfl, List.elem_iff.mp hmem⟩)
      · rintro (hc | hc | ⟨t, ht, hmem⟩)
        · exact absurd hc (by simp)
        · exact absurd hc (by simp [hs])
        · cases ht
          exact List.elem_iff.mpr hmem

/-- The reconciler on a non-executing workflow: raise the duplicate-callback
error and touch nothing. -/
theorem execute_callback_guard (env : CallbackEnv) (task : Task) (st : Store)
    (h : st.wf.status ≠ "workflow_executing") :
    execute_callback env task st = ⟨some (.duplicateCallback st.wf.id), st⟩ := by
  unfold execute_callback
  simp [h]

/-- Past the guard, the persisted workflow row is exactly the promoted
in-memory record, whatever the collaborators do: the line-138 save (or the
state captured at an uncaught later failure) always carries the classified,
possibly promoted workflow. -/
theorem execute_callback_wf (env : CallbackEnv) (task : Task) (st : Store)
    (h : st.wf.status = "workflow_executing") :
    (execute_callback env task st).store.wf =
      (applyPromotion env.link
        { st.wf with
            finish_time := some task.stopped
            status := (classify task.outcome st.content.sql_content).1 }).wf := by
  unfold execute_callback
  simp only [h, ne_eq, not_true_eq_false, if_false]
  split_ifs <;> simp [notifyStep] <;> split_ifs <;> simp

/-- Past the guard, the persisted content row carries the serialized result
on the happy path and the captured error text after the fallback. -/
theorem execute_callback_content (env : CallbackEnv) (task : Task)
    (st : Store) (h : st.wf.status = "workflow_executing") :
    (execute_callback env task st).store.content =
      (if env.saveOk then
        { st.content with
            execute_result := .json (classify task.outcome
              st.content.sql_content).2 }
      else
        { st.content with execute_result := .errText env.saveErrText }) := by
  unfold execute_callback
  simp only [h, ne_eq, not_true_eq_false, if_false]
  split_ifs <;> simp [notifyStep] <;> split_ifs <;> simp

/-- Past the guard, the only errors the reconciler can raise are the
uncaught audit, cache and notification collaborator failures. -/
theorem execute_callback_err_cases (env : CallbackEnv) (task : Task)
    (st : Store) (h : st.wf.status = "workflow_executing") :
    (execute_callback env task st).err = none ∨
      (execute_callback env task st).err = some .auditFailure ∨
      (execute_callback env task st).err = some .cacheFailure ∨
      (execute_callback env task st).err = some .notifyFailure := by
  unfold execute_callback
  simp only [h, ne_eq, not_true_eq_false, if_false]
  split_ifs <;> simp [notifyStep] <;> split_ifs <;> simp

/-- Past the guard, with working audit and cache collaborators and a
working notifier, the final notified flag is the initial one or-ed with
the gate. -/
theorem execute_callback_notified (env : CallbackEnv) (task : Task)
    (st : Store) (h : st.wf.status = "workflow_executing")
    (hA : env.auditOk = true) (hC : env.cacheOk = true)
    (hN : env.notifyOk = true) :
    (execute_callback env task st).store.notified =
      (st.notified || is_notified env.notify_phase_control) := by
  unfold execute_callback
  simp only [h, ne_eq, not_true_eq_false, if_false, hA, hC]
  split_ifs <;>
    cases hg : is_notified env.notify_phase_control <;>
    simp [notifyStep, hg, hN] <;>
    contradiction

/-- Past the guard, with healthy audit, cache and notification
collaborators nothing escapes, whatever the link row is. -/
theorem execute_callback_err_none (env : CallbackEnv) (task : Task)
    (st : Store) (h : st.wf.status = "workflow_executing")
    (hA : env.auditOk = true) (hC : env.cacheOk = true)
    (hN : env.notifyOk = true) :
    (execute_callback env task st).err = none := by
  unfold execute_callback
  simp only [h, ne_eq, not_true_eq_false, if_false, hA, hC]
  split_ifs <;>
    first
      | contradiction
      | (cases hg : is_notified env.notify_phase_control <;>
          simp [notifyStep, hg, hN])

/-- Past the guard, with healthy audit, cache and notification
collaborators exactly one audit entry is appended, whatever the link row
is. -/
theorem execute_callback_auditLog_len (env : CallbackEnv) (task : Task)
    (st : Store) (h : st.wf.status = "workflow_executing")
    (hA : env.auditOk = true) (hC : env.cacheOk = true) :
    (execute_callback env task st).store.auditLog.length =
      st.auditLog.length + 1 := by
  unfold execute_callback
  simp only [h, ne_eq, not_true_eq_false, if_false, hA, hC]
  split_ifs <;> first | contradiction | simp [notifyStep_auditLog]

/-! ### Claims -/

/-- C2: dispatch fails (with the invalid-state error) iff the workflow's
status is outside {queuing, timingtask} at call time; on success the
persisted status becomes exactly `workflow_executing` and exactly one audit
entry is appended; on failure nothing changes and the engine is never
reached. -/
theorem C2_dispatch_contract (wf : Workflow) (log : List AuditEntry)
    (user : Option User) :
    ((execute wf log user).err.isSome ↔
      (wf.status ≠ "workflow_queuing" ∧ wf.status ≠ "workflow_timingtask")) ∧
    ((wf.status = "workflow_queuing" ∨ wf.status = "workflow_timingtask") →
      (execute wf log user).err = none ∧
      (execute wf log user).wf = { wf with status := "workflow_executing" } ∧
      (∃ e, (execute wf log user).auditLog = log ++ [e])) ∧
    ((wf.status ≠ "workflow_queuing" ∧ wf.status ≠ "workflow_timingtask") →
      (execute wf log user).wf = wf ∧
      (execute wf log user).auditLog = log ∧
      (execute wf log user).engineArg = none) := by
  by_cases h1 : wf.status = "workflow_queuing" <;>
    by_cases h2 : wf.status = "workflow_timingtask" <;>
    simp [execute, h1, h2]

/-- Witness for C2 at a concrete queuing workflow and at a concrete
finished workflow. -/
theorem C2_dispatch_contract_witness :
    (execute wfQ [] none).err = none ∧
    (execute wfQ [] none).wf = { wfQ with status := "workflow_executing" } ∧
    (execute wfC [] none).wf = wfC ∧
    (execute wfC [] none).auditLog = [] := by
  have hq := (C2_dispatch_contract wfQ [] none).2.1 (Or.inl rfl)
  have hf := (C2_dispatch_contract wfC [] none).2.2 (by decide)
  exact ⟨hq.1, hq.2.1, hf.1, hf.2.1⟩

/-- C10: on a successful dispatch the record handed to the engine is the
pre-transition in-memory record, with its original status and every other
field unchanged; the executing status only reaches the persisted row, which
differs from the loaded record in the status field alone. -/
theorem C10_engine_gets_pretransition_record (wf : Workflow)
    (log : List AuditEntry) (user : Option User)
    (h : wf.status = "workflow_queuing" ∨ wf.status = "workflow_timingtask") :
    (execute wf log user).engineArg = some wf ∧
      (execute wf log user).wf = { wf with status := "workflow_executing" } := by
  rcases h with h | h <;> simp [execute, h]

/-- Witness for C10 at a concrete queuing workflow. -/
theorem C10_engine_gets_pretransition_record_witness :
    (execute wfQ [] none).engineArg = some wfQ ∧
      (execute wfQ [] none).wf = { wfQ with status := "workflow_executing" } := by
  exact C10_engine_gets_pretransition_record wfQ [] none (Or.inl rfl)

/-- C3: the reconciler fails with the duplicate-callback error iff the
workflow's status is not `workflow_executing` at call time, and in that
case nothing at all is mutated. -/
theorem C3_reconcile_guard (env : CallbackEnv) (task : Task) (st : Store) :
    ((execute_callback env task st).err =
        some (.duplicateCallback st.wf.id) ↔
      st.wf.status ≠ "workflow_executing") ∧
    (st.wf.status ≠ "workflow_executing" →
      execute_callback env task st =
        ⟨some (.duplicateCallback st.wf.id), st⟩) := by
  by_cases h : st.wf.status = "workflow_executing"
  · refine ⟨⟨fun hc => ?_, fun hc => absurd h hc⟩, fun hc => absurd h hc⟩
    rcases execute_callback_err_cases env task st h with h1 | h1 | h1 | h1 <;>
      rw [h1] at hc <;> simp at hc
  · simp [execute_callback_guard env task st h, h]

/-- Witness for C3 at a concrete already-finished workflow. -/
theorem C3_reconcile_guard_witness :
    execute_callback envC taskFail
        { stC with wf := { wfC with status := "workflow_finish" } } =
      ⟨some (.duplicateCallback 7),
        { stC with wf := { wfC with status := "workflow_finish" } }⟩ := by
  exact (C3_reconcile_guard envC taskFail
    { stC with wf := { wfC with status := "workflow_finish" } }).2 (by decide)

/-- C5: a failed task delivery always classifies as `workflow_exception`
with exactly one synthesized row: stage "Execute failed", hard error level
2, status label "异常终止", the raw failure detail as message and the
original full SQL text as the sql. -/
theorem C5_failed_task_classification (detail sql : String) :
    classify (.failed detail) sql =
      ("workflow_exception",
        { full_sql := sql
          warning := false
          error := false
          rows := [{ stage := "Execute failed"
                     errlevel := 2
                     stagestatus := "异常终止"
                     errormessage := detail
                     sql := sql }] }) ∧
    (classify (.failed detail) sql).2.rows.length = 1 := ⟨rfl, rfl⟩

/-- C6: the classifier is a total function — every input yields exactly one
(status, result) pair (it cannot raise) — and on a successful delivery a
result with the warning or error flag set classifies as exception with the
result as-is, while a clean result classifies as finish as-is. -/
theorem C6_classifier_total_and_success_cases (o : TaskOutcome)
    (sql : String) (r : ReviewSet) :
    (∃! p : String × ReviewSet, classify o sql = p) ∧
    ((r.warning = true ∨ r.error = true) →
      classify (.succeeded r) sql = ("workflow_exception", r)) ∧
    ((r.warning = false ∧ r.error = false) →
      classify (.succeeded r) sql = ("workflow_finish", r)) := by
  refine ⟨⟨classify o sql, rfl, fun y hy => hy.symm⟩, ?_, ?_⟩
  · rintro (h | h) <;> simp [classify, h]
  · rintro ⟨h1, h2⟩
    simp [classify, h1, h2]

/-- Witness for C6 at a warning-flagged result and at a clean result. -/
theorem C6_classifier_witness :
    classify (.succeeded { rsClean with warning := true }) "select 1" =
      ("workflow_exception", { rsClean with warning := true }) ∧
    classify (.succeeded rsClean) "select 1" =
      ("workflow_finish", rsClean) := by
  exact ⟨(C6_classifier_total_and_success_cases
      (.succeeded { rsClean with warning := true }) "select 1"
      { rsClean with warning := true }).2.1 (Or.inl rfl),
    (C6_classifier_total_and_success_cases (.succeeded rsClean) "select 1"
      rsClean).2.2 ⟨rfl, rfl⟩⟩

/-- C4: after any reconcile call that passes the executing guard the
persisted status is terminal (`workflow_finish`, `workflow_exception` or
`workflow_review_pass`), never `workflow_executing` — even when the primary
persistence fails, in which case the captured error text is what ends up
stored as the content payload; consequently a second reconcile on the
resulting state raises the duplicate-callback error and changes nothing
(no second audit entry, no second promotion). -/
theorem C4_terminal_and_idempotent (env env2 : CallbackEnv)
    (task task2 : Task) (st : Store)
    (h : st.wf.status = "workflow_executing") :
    ((execute_callback env task st).store.wf.status = "workflow_finish" ∨
      (execute_callback env task st).store.wf.status = "workflow_exception" ∨
      (execute_callback env task st).store.wf.status =
        "workflow_review_pass") ∧
    (execute_callback env task st).store.wf.status ≠ "workflow_executing" ∧
    (env.saveOk = false →
      (execute_callback env task st).store.content.execute_result =
        .errText env.saveErrText) ∧
    execute_callback env2 task2 (execute_callback env task st).store =
      ⟨some (.duplicateCallback
          (execute_callback env task st).store.wf.id),
        (execute_callback env task st).store⟩ := by
  have hwf := execute_callback_wf env task st h
  have hst : (execute_callback env task st).store.wf.status =
        "workflow_finish" ∨
      (execute_callback env task st).store.wf.status =
        "workflow_exception" ∨
      (execute_callback env task st).store.wf.status =
        "workflow_review_pass" := by
    rw [hwf]
    rcases applyPromotion_status env.link
        { st.wf with
            finish_time := some task.stopped
            status := (classify task.outcome st.content.sql_content).1 }
      with hp | hp
    · rw [hp]
      rcases classify_status_mem task.outcome st.content.sql_content
        with hc | hc
      · exact Or.inr (Or.inl hc)
      · exact Or.inl hc
    · exact Or.inr (Or.inr hp)
  have hne : (execute_callback env task st).store.wf.status ≠
      "workflow_executing" := by
    rcases hst with h1 | h1 | h1 <;> rw [h1] <;> decide
  refine ⟨hst, hne, ?_, ?_⟩
  · intro hs
    rw [execute_callback_content env task st h]
    simp [hs]
  · exact execute_callback_guard env2 task2 _ hne

/-- Witness for C4: a run with a failed primary persistence ends in a
non-executing state with the error text stored; re-reconciling it raises
the duplicate-callback error and touches nothing. -/
theorem C4_terminal_and_idempotent_witness :
    (execute_callback envSaveFail taskOk stC).store.wf.status ≠
      "workflow_executing" ∧
    (execute_callback envSaveFail taskOk stC).store.content.execute_result =
      .errText "DatabaseError" ∧
    execute_callback envC taskOk
        (execute_callback envSaveFail taskOk stC).store =
      ⟨some (.duplicateCallback
          (execute_callback envSaveFail taskOk stC).store.wf.id),
        (execute_callback envSaveFail taskOk stC).store⟩ := by
  have h := C4_terminal_and_idempotent envSaveFail envC taskOk taskOk stC rfl
  exact ⟨h.2.1, h.2.2.1 rfl, h.2.2.2⟩

/-- C1: evaluation of the reconciler at the failing input of the claim.
The task failed, so the classified status is `workflow_exception`, yet the
promotion block still fires: it retargets the workflow to the configured
sit slot, rewrites its name and overwrites the exception status with
`workflow_review_pass`.  The source never consults the classified status
before promoting. -/
theorem C1_promotion_ignores_exception_eval :
    (classify taskFail.outcome stC.content.sql_content).1 =
      "workflow_exception" ∧
    (execute_callback envC taskFail stC).err = none ∧
    (execute_callback envC taskFail stC).store.wf.status =
      "workflow_review_pass" ∧
    (execute_callback envC taskFail stC).store.wf.«instance» = "I2" ∧
    (execute_callback envC taskFail stC).store.wf.db_name = "D2" ∧
    (execute_callback envC taskFail stC).store.wf.workflow_name =
      "[sit]Add index" := by decide

/-- Counterexample to C7 as stated: the claim says the *leading* bracketed
tag is replaced by the next environment's tag, so that after a dev→sit
promotion the leading tag reflects sit.  But the source replaces
occurrences of the *current* environment's tag: a workflow named
"[uat]Add index" executing on the dev slot is promoted (status becomes
review-pass) while its name keeps the leading "[uat]" tag. -/
theorem C7_counterexample :
    (applyPromotion (some linkC)
        { wfC with workflow_name := "[uat]Add index" }).wf.status =
      "workflow_review_pass" ∧
    (applyPromotion (some linkC)
        { wfC with workflow_name := "[uat]Add index" }).wf.workflow_name =
      "[uat]Add index" ∧
    ("[sit]".data.isPrefixOf
        (applyPromotion (some linkC)
          { wfC with workflow_name := "[uat]Add index" }).wf.workflow_name.data)
      = false := by decide

/-- C7 (amended): for every promotion from a current environment to the
next one — dev→sit, sit→uat and uat→pro, the only promotions the chain
admits, each taken at the first slot the workflow's (instance, db_name)
matches — when the workflow name starts with one of the four bracketed
environment tags, every occurrence of the *current* environment's tag is
replaced by the next environment's tag (Python `str.replace`); otherwise
the next environment's tag is prepended.  In particular "[dev]Add index"
promoted dev→sit becomes "[sit]Add index" and "Add index" becomes
"[sit]Add index". -/
theorem C7_tag_rewrite_amended (link : DBEnvRelation) (wf : Workflow) :
    (∀ i2 d2 : String,
      link.dev_instance = some wf.«instance» →
      link.dev_database = some wf.db_name →
      link.sit_instance = some i2 →
      link.sit_database = some d2 →
      d2.length > 0 →
      (applyPromotion (some link) wf).wf.status = "workflow_review_pass" ∧
      (applyPromotion (some link) wf).wf.«instance» = i2 ∧
      (applyPromotion (some link) wf).wf.db_name = d2 ∧
      (applyPromotion (some link) wf).wf.workflow_name =
        (if hasEnvTag wf.workflow_name then
          pyReplace wf.workflow_name "[dev]" "[sit]"
        else "[sit]" ++ wf.workflow_name)) ∧
    (∀ i2 d2 : String,
      ¬(link.dev_instance = some wf.«instance» ∧
        link.dev_database = some wf.db_name) →
      link.sit_instance = some wf.«instance» →
      link.sit_database = some wf.db_name →
      link.uat_instance = some i2 →
      link.uat_database = some d2 →
      d2.length > 0 →
      (applyPromotion (some link) wf).wf.status = "workflow_review_pass" ∧
      (applyPromotion (some link) wf).wf.«instance» = i2 ∧
      (applyPromotion (some link) wf).wf.db_name = d2 ∧
      (applyPromotion (some link) wf).wf.workflow_name =
        (if hasEnvTag wf.workflow_name then
          pyReplace wf.workflow_name "[sit]" "[uat]"
        else "[uat]" ++ wf.workflow_name)) ∧
    (∀ i2 d2 : String,
      ¬(link.dev_instance = some wf.«instance» ∧
        link.dev_database = some wf.db_name) →
      ¬(link.sit_instance = some wf.«instance» ∧
        link.sit_database = some wf.db_name) →
      link.uat_instance = some wf.«instance» →
      link.uat_database = some wf.db_name →
      link.pro_instance = some i2 →
      link.pro_database = some d2 →
      d2.length > 0 →
      (applyPromotion (some link) wf).wf.status = "workflow_review_pass" ∧
      (applyPromotion (some link) wf).wf.«instance» = i2 ∧
      (applyPromotion (some link) wf).wf.db_name = d2 ∧
      (applyPromotion (some link) wf).wf.workflow_name =
        (if hasEnvTag wf.workflow_name then
          pyReplace wf.workflow_name "[uat]" "[pro]"
        else "[pro]" ++ wf.workflow_name)) ∧
    (applyPromotion (some linkC)
        { wfC with workflow_name := "[dev]Add index" }).wf.workflow_name =
      "[sit]Add index" ∧
    (applyPromotion (some linkC)
        { wfC with workflow_name := "Add index" }).wf.workflow_name =
      "[sit]Add index" := by
  refine ⟨?_, ?_, ?_, by decide, by decide⟩
  · intro i2 d2 hdev_i hdev_d hsit_i hsit_d hlen
    have hres : resolveEnv (some link) wf.«instance» wf.db_name =
        ⟨"dev", "sit", some (i2, d2)⟩ := by
      simp only [resolveEnv]
      rw [hdev_i, hdev_d, hsit_i, hsit_d]
      simp [hlen]
    unfold applyPromotion
    simp only [hres]
    refine ⟨rfl, rfl, rfl, ?_⟩
    simp [rewriteName]
  · intro i2 d2 hnodev hsit_i hsit_d huat_i huat_d hlen
    have hres : resolveEnv (some link) wf.«instance» wf.db_name =
        ⟨"sit", "uat", some (i2, d2)⟩ := by
      simp only [resolveEnv]
      rw [if_neg hnodev]
      rw [hsit_i, hsit_d, huat_i, huat_d]
      simp [hlen]
    unfold applyPromotion
    simp only [hres]
    refine ⟨rfl, rfl, rfl, ?_⟩
    simp [rewriteName]
  · intro i2 d2 hnodev hnosit huat_i huat_d hpro_i hpro_d hlen
    have hres : resolveEnv (some link) wf.«instance» wf.db_name =
        ⟨"uat", "pro", some (i2, d2)⟩ := by
      simp only [resolveEnv]
      rw [if_neg hnodev, if_neg hnosit]
      rw [huat_i, huat_d, hpro_i, hpro_d]
      simp [hlen]
    unfold applyPromotion
    simp only [hres]
    refine ⟨rfl, rfl, rfl, ?_⟩
    simp [rewriteName]

/-- Witness for C7 (amended): one concrete promotion of each kind —
dev→sit on `linkC`/`wfC`, sit→uat and uat→pro on `linkFull`. -/
theorem C7_tag_rewrite_amended_witness :
    (applyPromotion (some linkC) wfC).wf.status = "workflow_review_pass" ∧
    (applyPromotion (some linkC) wfC).wf.«instance» = "I2" ∧
    (applyPromotion (some linkC) wfC).wf.workflow_name = "[sit]Add index" ∧
    (applyPromotion (some linkFull) wfSit).wf.«instance» = "I3" ∧
    (applyPromotion (some linkFull) wfSit).wf.workflow_name =
      "[uat]Add index" ∧
    (applyPromotion (some linkFull) wfUat).wf.status =
      "workflow_review_pass" ∧
    (applyPromotion (some linkFull) wfUat).wf.workflow_name =
      "[pro]Add index" := by
  have h1 := (C7_tag_rewrite_amended linkC wfC).1 "I2" "D2" rfl rfl rfl rfl
    (by decide)
  have h2 := (C7_tag_rewrite_amended linkFull wfSit).2.1 "I3" "D3"
    (by decide) rfl rfl rfl rfl (by decide)
  have h3 := (C7_tag_rewrite_amended linkFull wfUat).2.2.1 "I4" "D4"
    (by decide) (by decide) rfl rfl rfl rfl (by decide)
  refine ⟨h1.1, h1.2.1, ?_, h2.2.1, ?_, h3.1, ?_⟩
  · rw [h1.2.2.2]
    decide
  · rw [h2.2.2.2]
    decide
  · rw [h3.2.2.2]
    decide

/-- Counterexample to C8 as stated: the claim says an audit-logging failure
is caught and does not abort the remaining steps, and that only the step-1
guard failure propagates.  But on a DDL workflow with everything else
healthy, a failing audit collaborator escapes to the caller and neither the
cache invalidation nor the notification ever runs. -/
theorem C8_counterexample :
    (execute_callback envAuditFail taskOk stDDL).err =
      some .auditFailure ∧
    (execute_callback envAuditFail taskOk stDDL).store.auditLog = [] ∧
    (execute_callback envAuditFail taskOk stDDL).store.cacheCleared =
      false ∧
    (execute_callback envAuditFail taskOk stDDL).store.notified = false := by
  decide

/-- C8 (amended): only the failures of steps 4–6 (environment-link
resolution and promotion-slot matching, whose exceptions the source
catches: a missing link row and a `len(None)` on the successor database)
are contained; the workflow still reaches its classified terminal status,
the audit entry is still appended and notification still runs.  Failures
of the audit, cache or notification collaborators (steps 7–9) are not
caught: they propagate to the caller and abort the remaining steps —
though even then the workflow status is already persisted correctly. -/
theorem C8_error_containment_amended (env : CallbackEnv) (task : Task)
    (st : Store) (h : st.wf.status = "workflow_executing") :
    (env.link = none → env.auditOk = true → env.cacheOk = true →
      env.notifyOk = true →
      (execute_callback env task st).err = none ∧
      (execute_callback env task st).store.wf.status =
        (classify task.outcome st.content.sql_content).1 ∧
      (execute_callback env task st).store.auditLog.length =
        st.auditLog.length + 1 ∧
      (execute_callback env task st).store.notified =
        (st.notified || is_notified env.notify_phase_control)) ∧
    (∀ (r : DBEnvRelation) (i : String),
      env.link = some r →
      r.dev_instance = some st.wf.«instance» →
      r.dev_database = some st.wf.db_name →
      r.sit_instance = some i →
      r.sit_database = none →
      env.auditOk = true → env.cacheOk = true → env.notifyOk = true →
      (execute_callback env task st).err = none ∧
      (execute_callback env task st).store.wf.status =
        (classify task.outcome st.content.sql_content).1 ∧
      (execute_callback env task st).store.auditLog.length =
        st.auditLog.length + 1 ∧
      (execute_callback env task st).store.notified =
        (st.notified || is_notified env.notify_phase_control)) ∧
    (env.auditOk = false →
      (execute_callback env task st).err = some .auditFailure ∧
      (execute_callback env task st).store.auditLog = st.auditLog ∧
      (execute_callback env task st).store.cacheCleared =
        st.cacheCleared ∧
      (execute_callback env task st).store.notified = st.notified) ∧
    (env.auditOk = true → st.wf.syntax_type = 1 → env.cacheOk = false →
      (execute_callback env task st).err = some .cacheFailure ∧
      (execute_callback env task st).store.notified = st.notified) ∧
    (env.auditOk = true → env.cacheOk = true →
      is_notified env.notify_phase_control = true → env.notifyOk = false →
      (execute_callback env task st).err = some .notifyFailure ∧
      (execute_callback env task st).store.notified = st.notified) := by
  refine ⟨?_, ?_, ?_, ?_, ?_⟩
  · intro hlink hA hC hN
    refine ⟨execute_callback_err_none env task st h hA hC hN, ?_,
      execute_callback_auditLog_len env task st h hA hC,
      execute_callback_notified env task st h hA hC hN⟩
    rw [execute_callback_wf env task st h, hlink, applyPromotion_none]
  · intro r i hlink hdev_i hdev_d hsit_i hsit_d hA hC hN
    have hres : resolveEnv (some r) st.wf.«instance» st.wf.db_name =
        ⟨"dev", "", none⟩ := by
      simp only [resolveEnv]
      rw [hdev_i, hdev_d, hsit_i, hsit_d]
      simp
    refine ⟨execute_callback_err_none env task st h hA hC hN, ?_,
      execute_callback_auditLog_len env task st h hA hC,
      execute_callback_notified env task st h hA hC hN⟩
    rw [execute_callback_wf env task st h, hlink, applyPromotion_no_next]
    · show (resolveEnv (some r) st.wf.«instance» st.wf.db_name).next_env = ""
      rw [hres]
    · show (resolveEnv (some r) st.wf.«instance» st.wf.db_name).retarget =
        none
      rw [hres]
  · intro hA
    unfold execute_callback
    simp only [h, ne_eq, not_true_eq_false, if_false, hA]
    split_ifs <;> simp
  · intro hA hsyn hC
    have hps : (applyPromotion env.link
        { st.wf with
            finish_time := some task.stopped
            status :=
              (classify task.outcome st.content.sql_content).1 }).wf.syntax_type
        = 1 := by
      rw [applyPromotion_syntax_type]
      simpa using hsyn
    unfold execute_callback
    simp only [h, ne_eq, not_true_eq_false, if_false, hA, hC, hps]
    split_ifs <;> simp <;> contradiction
  · intro hA hC hgate hN
    unfold execute_callback
    simp only [h, ne_eq, not_true_eq_false, if_false, hA, hC]
    split_ifs <;> first | contradiction | simp [notifyStep, hgate, hN]

/-- Witness for C8 (amended), one concrete instance per clause: a missing
link row and a half-configured link (successor database `None`) do not
abort the run; failing audit, cache and notification collaborators each
escape. -/
theorem C8_error_containment_amended_witness :
    (execute_callback envNoLink taskOk stC).err = none ∧
    (execute_callback envNoLink taskOk stC).store.auditLog.length = 1 ∧
    (execute_callback envHalfLink taskOk stC).err = none ∧
    (execute_callback envHalfLink taskOk stC).store.wf.status =
      "workflow_finish" ∧
    (execute_callback envAuditFail taskOk stC).err = some .auditFailure ∧
    (execute_callback envCacheFail taskOk stDDL).err = some .cacheFailure ∧
    (execute_callback envNotifyFail taskOk stC).err =
      some .notifyFailure := by
  have h1 := (C8_error_containment_amended envNoLink taskOk stC rfl).1
    rfl rfl rfl rfl
  have h2 := (C8_error_containment_amended envHalfLink taskOk stC rfl).2.1
    linkHalf "I2" rfl rfl rfl rfl rfl rfl rfl rfl
  have h3 := (C8_error_containment_amended envAuditFail taskOk stC
    rfl).2.2.1 rfl
  have h4 := (C8_error_containment_amended envCacheFail taskOk stDDL
    rfl).2.2.2.1 rfl rfl rfl
  have h5 := (C8_error_containment_amended envNotifyFail taskOk stC
    rfl).2.2.2.2 rfl rfl (by decide) rfl
  refine ⟨h1.1, h1.2.2.1, h2.1, ?_, h3.1, h4.1, h5.1⟩
  rw [h2.2.1]
  decide

/-- Counterexample to C9 as stated: the claim allows notification only when
the "Execute" phase appears in the comma-separated configuration value or
when no configuration value exists.  But an existing *empty* configuration
value is falsy in Python, so the source notifies although "Execute" is not
among the phases of `"".split(",") = [""]` and the value does exist. -/
theorem C9_counterexample :
    (execute_callback envEmptyCfg taskOk stC).store.notified = true ∧
    envEmptyCfg.notify_phase_control = some "" ∧
    ¬ ("Execute" ∈ pySplit "" ',') := by decide

/-- C9 (amended): at the end of a reconciliation (with healthy audit, cache
and notification collaborators and a not-yet-notified state), the external
notification collaborator is invoked iff the "Execute" phase appears in
the comma-separated configuration value, or the configuration value is
absent, or it is the empty string (Python falsiness defaults to enabled). -/
theorem C9_notification_gate_amended (env : CallbackEnv) (task : Task)
    (st : Store) (h : st.wf.status = "workflow_executing")
    (h0 : st.notified = false) (hA : env.auditOk = true)
    (hC : env.cacheOk = true) (hN : env.notifyOk = true) :
    (execute_callback env task st).store.notified = true ↔
      (env.notify_phase_control = none ∨
        env.notify_phase_control = some "" ∨
        ∃ s, env.notify_phase_control = some s ∧
          "Execute" ∈ pySplit s ',') := by
  rw [execute_callback_notified env task st h hA hC hN, h0, Bool.false_or]
  exact is_notified_iff env.notify_phase_control

/-- Witness for C9 (amended): with no configuration value the collaborator
is invoked. -/
theorem C9_notification_gate_amended_witness :
    (execute_callback envC taskOk stC).store.notified = true :=
  (C9_notification_gate_amended envC taskOk stC rfl rfl rfl rfl rfl).mpr
    (Or.inl rfl)

end ExecuteSql
